import Mathlib

/-!
Shallow embedding of `extract_highlight.py`, the audio-highlight extraction
script of this repository, together with proofs about its behaviour.

Python floats are modelled by `ℚ` (exact arithmetic; the specification allows
a small tolerance `ε` which exact arithmetic satisfies trivially).  The
external library primitives (`librosa`, `numpy`) are not repository code;
each is embedded by its documented contract, noted at its definition.
-/

namespace ExtractHighlight

/-- Hop size used throughout the script: `librosa` default `hop_length = 512`. -/
def hopSize : ℕ := 512

/-- Line 54 of `extract_highlight.py`: `window_size = int(5 * sr / 512)`.
Python `int()` truncates toward zero; for a natural `sr` this is natural
division (floor). -/
def windowSize (sr : ℕ) : ℕ := 5 * sr / hopSize

/-- `librosa.frames_to_time(frames, sr=sr)` with the default hop length:
`frames * 512 / sr` seconds (librosa documented contract, used at lines 44
and 59). -/
def framesToTime (frames sr : ℕ) : ℚ := (frames * hopSize : ℕ) / (sr : ℚ)

/-- Maximum of a list of rationals, `0` for the empty list (the empty case is
never reached on the paths the script exercises). -/
def listMax : List ℚ → ℚ
  | [] => 0
  | x :: xs => xs.foldl max x

/-- `np.argmax` (line 56): numpy documents that, in case of multiple
occurrences of the maximum value, the index of the first occurrence is
returned.  Embedded as the first index whose entry equals the maximum. -/
def argmaxIdx (l : List ℚ) : ℕ := l.findIdx (fun x => decide (x = listMax l))

/-- `np.mean` (line 63): the arithmetic mean, sum over length. -/
def listMean (l : List ℚ) : ℚ := l.sum / (l.length : ℚ)

/-- `np.convolve(a, np.ones(w), mode valid)` (line 55).  numpy raises
`ValueError` when either argument is empty (modelled as `none`).  Otherwise
the mode `valid` output has length `max(n, w) - min(n, w) + 1`: numpy swaps
the arguments so that the longer one is the signal.  With an all-ones kernel
this gives the sliding sums of width `w` when `w ≤ n`, and, when `w > n`,
`w - n + 1` copies of the total sum of `a` (every fully-overlapping position
covers all of `a`). -/
def convolveValidOnes (a : List ℚ) (w : ℕ) : Option (List ℚ) :=
  if a.length = 0 ∨ w = 0 then none
  else if w ≤ a.length then
    some ((List.range (a.length - w + 1)).map (fun k => ((a.drop k).take w).sum))
  else
    some (List.replicate (w - a.length + 1) a.sum)

/-- Lines 68-70: `if start_time > duration - 20: start_time = max(0, duration - 20)`. -/
def clampStart (start_time dur : ℚ) : ℚ :=
  if start_time > dur - 20 then max 0 (dur - 20) else start_time

/-- Line 72: `highlight_duration = min(20.0, duration - start_time)`. -/
def highlightDuration (dur start_time : ℚ) : ℚ := min 20 (dur - start_time)

/-- The result dictionary assembled at lines 75-80. -/
structure HighlightResult where
  start : ℚ
  duration : ℚ
  confidence : ℚ
  energy_ratio : ℚ
deriving DecidableEq, Repr

/-- Exceptions that the analysis block itself can raise (beyond loading):
`ValueError` from `np.convolve` on an empty argument (line 55) and
`ZeroDivisionError` from `peak_energy / mean_energy` when the mean is zero
(line 64; Python float division by `0.0` raises). -/
inductive PipeError where
  | convolveEmpty
  | zeroDivMean
deriving DecidableEq, Repr

/-- Messages written to the debug log (`log_debug` calls, structurally). -/
inductive LogMsg where
  | processing
  | audioDuration (d : ℚ)
  | tempoMsg (t : ℚ)
  | beatsFound (n : ℕ)
  | energyRatio (r : ℚ)
  | adjustStart (s : ℚ)
  | selected (s d : ℚ)
deriving DecidableEq, Repr

/-- All outputs of the external analysis primitives for one loaded file:
sample rate and duration from `librosa.load` / `librosa.get_duration`,
tempo and beat frames from `librosa.beat.beat_track`, and the onset
strength curve from `librosa.onset.onset_strength`. -/
structure Track where
  sr : ℕ
  duration : ℚ
  tempo : ℚ
  beats : List ℕ
  onsetEnv : List ℚ
deriving DecidableEq, Repr

/-- Lines 33-81 of `extract_highlight.py`, after the file has loaded: the
analysis pipeline, returning either the assembled result or the exception
it raises, together with the debug-log messages emitted on that path. -/
def runPipeline (t : Track) : Except PipeError HighlightResult × List LogMsg :=
  let log2 := [LogMsg.processing, LogMsg.audioDuration t.duration,
               LogMsg.tempoMsg t.tempo, LogMsg.beatsFound t.beats.length]
  let _beat_times := t.beats.map (fun f => framesToTime f t.sr)
  match convolveValidOnes t.onsetEnv (windowSize t.sr) with
  | none => (Except.error PipeError.convolveEmpty, log2)
  | some onset_sum =>
    let peak_idx := argmaxIdx onset_sum
    let start_time0 := framesToTime peak_idx t.sr
    let peak_energy := onset_sum.getD peak_idx 0
    let mean_energy := listMean onset_sum
    if mean_energy = 0 then (Except.error PipeError.zeroDivMean, log2)
    else
      let energy_ratio := peak_energy / mean_energy
      let log3 := log2 ++ [LogMsg.energyRatio energy_ratio]
      let log4 := if start_time0 > t.duration - 20
                  then log3 ++ [LogMsg.adjustStart start_time0] else log3
      let start_time := clampStart start_time0 t.duration
      let hd := highlightDuration t.duration start_time
      (Except.ok ⟨start_time, hd, energy_ratio, energy_ratio⟩,
       log4 ++ [LogMsg.selected start_time hd])

/-- What the process prints on standard output: `json.dumps` of either the
error dictionary or the result dictionary. -/
inductive Output where
  | errorJson (msg : String)
  | resultJson (r : HighlightResult)
deriving DecidableEq, Repr

/-- The message text serialized for an analysis exception
(Python `str(e)` plus traceback; the claims depend only on its presence). -/
def errMsg : PipeError → String
  | PipeError.convolveEmpty => "ValueError: v cannot be empty"
  | PipeError.zeroDivMean => "ZeroDivisionError: float division by zero"

/-- Observable outcome of one process invocation: what was printed, the exit
code, and whether `debug_log.close()` was executed before the exit. -/
structure RunOut where
  stdout : Output
  exitCode : ℕ
  logClosed : Bool
deriving DecidableEq, Repr

/-- Lines 26-88: the whole script after the log file is opened (line 13).
`load` stands for the outcome of `librosa.load` on the given path (an
exception message, or the loaded track with the analysis-primitive outputs).
On the missing-argument path (lines 26-28) the script prints the error JSON
and exits without calling `debug_log.close()`; both the success path
(line 82) and the exception handler (line 87) do call it. -/
def runMain (argv : List String) (load : Except String Track) : RunOut :=
  if argv.length < 2 then
    { stdout := Output.errorJson "No audio file provided", exitCode := 1, logClosed := false }
  else
    match load with
    | Except.error msg =>
        { stdout := Output.errorJson msg, exitCode := 1, logClosed := true }
    | Except.ok t =>
        match (runPipeline t).1 with
        | Except.ok r => { stdout := Output.resultJson r, exitCode := 0, logClosed := true }
        | Except.error e =>
            { stdout := Output.errorJson (errMsg e), exitCode := 1, logClosed := true }

end ExtractHighlight

namespace ExtractHighlight

/-- Tolerance constant from the specification (`ε = 1e-6`); exact rational
arithmetic satisfies the toleranced bounds trivially. -/
def epsTol : ℚ := 1 / 1000000

theorem getD_of_lt (l : List ℚ) {n : ℕ} (h : n < l.length) : l.getD n 0 = l[n] := by
  simp [List.getD_eq_getElem?_getD, List.getElem?_eq_getElem h]

theorem le_foldl_max (xs : List ℚ) (a : ℚ) : a ≤ xs.foldl max a := by
  induction xs generalizing a with
  | nil => exact le_refl a
  | cons x xs ih => exact le_trans (le_max_left a x) (ih (max a x))

theorem mem_le_foldl_max {x : ℚ} {xs : List ℚ} (a : ℚ) (hx : x ∈ xs) :
    x ≤ xs.foldl max a := by
  induction xs generalizing a with
  | nil => cases hx
  | cons y ys ih =>
    rcases List.mem_cons.mp hx with h | h
    · subst h
      exact le_trans (le_max_right a x) (le_foldl_max ys (max a x))
    · exact ih (max a y) h

theorem foldl_max_mem (xs : List ℚ) (a : ℚ) :
    xs.foldl max a = a ∨ xs.foldl max a ∈ xs := by
  induction xs generalizing a with
  | nil => exact Or.inl rfl
  | cons y ys ih =>
    rcases ih (max a y) with h | h
    · rcases max_cases a y with ⟨he, _⟩ | ⟨he, _⟩
      · left
        rw [List.foldl_cons, h, he]
      · right
        rw [List.foldl_cons, h, he]
        exact List.mem_cons_self y ys
    · right
      exact List.mem_cons_of_mem y h

theorem le_listMax {l : List ℚ} {x : ℚ} (hx : x ∈ l) : x ≤ listMax l := by
  cases l with
  | nil => cases hx
  | cons y ys =>
    rcases List.mem_cons.mp hx with h | h
    · subst h
      exact le_foldl_max ys x
    · exact mem_le_foldl_max y h

theorem listMax_mem {l : List ℚ} (h : l ≠ []) : listMax l ∈ l := by
  cases l with
  | nil => exact absurd rfl h
  | cons y ys =>
    show ys.foldl max y ∈ y :: ys
    rcases foldl_max_mem ys y with h1 | h1
    · rw [h1]
      exact List.mem_cons_self y ys
    · exact List.mem_cons_of_mem y h1

theorem argmaxIdx_lt_length {l : List ℚ} (h : l ≠ []) : argmaxIdx l < l.length :=
  List.findIdx_lt_length_of_exists ⟨listMax l, listMax_mem h, by simp⟩

theorem getD_argmaxIdx {l : List ℚ} (h : l ≠ []) :
    l.getD (argmaxIdx l) 0 = listMax l := by
  have hlt : l.findIdx (fun x => decide (x = listMax l)) < l.length := argmaxIdx_lt_length h
  have hp := List.findIdx_of_getElem?_eq_some (List.getElem?_eq_getElem hlt)
  have he := of_decide_eq_true hp
  rw [getD_of_lt l (argmaxIdx_lt_length h)]
  exact he

theorem argmaxIdx_le_of_getD {l : List ℚ} {k : ℕ} (hk : k < l.length)
    (he : l.getD k 0 = listMax l) : argmaxIdx l ≤ k := by
  by_contra hlt
  push_neg at hlt
  unfold argmaxIdx at hlt
  have hfalse := List.not_of_lt_findIdx hlt
  rw [getD_of_lt l hk] at he
  simp [he] at hfalse

theorem listMean_nonneg {l : List ℚ} (h : ∀ x ∈ l, 0 ≤ x) : 0 ≤ listMean l :=
  div_nonneg (List.sum_nonneg h) (Nat.cast_nonneg _)

theorem listMean_le_listMax {l : List ℚ} (h : l ≠ []) : listMean l ≤ listMax l := by
  have hlen : 0 < (l.length : ℚ) := by
    exact_mod_cast List.length_pos.mpr h
  rw [listMean, div_le_iff₀ hlen]
  have hsum : l.sum ≤ l.length • listMax l :=
    List.sum_le_card_nsmul l (listMax l) (fun x hx => le_listMax hx)
  calc l.sum ≤ l.length • listMax l := hsum
    _ = listMax l * l.length := by rw [nsmul_eq_mul, mul_comm]

theorem convolveValidOnes_pos_length {a : List ℚ} {w : ℕ} {os : List ℚ}
    (h : convolveValidOnes a w = some os) : 0 < os.length := by
  unfold convolveValidOnes at h
  split at h
  · simp at h
  · split at h <;> cases h <;> simp

theorem convolveValidOnes_mem_nonneg {a : List ℚ} {w : ℕ} {os : List ℚ}
    (h : convolveValidOnes a w = some os) (hnn : ∀ x ∈ a, 0 ≤ x) :
    ∀ y ∈ os, 0 ≤ y := by
  unfold convolveValidOnes at h
  split at h
  · simp at h
  · split at h <;> cases h
    · intro y hy
      rcases List.mem_map.mp hy with ⟨k, _, rfl⟩
      exact List.sum_nonneg
        (fun x hx => hnn x (List.mem_of_mem_drop (List.mem_of_mem_take hx)))
    · intro y hy
      rw [List.eq_of_mem_replicate hy]
      exact List.sum_nonneg hnn

theorem convolveValidOnes_of_lt {a : List ℚ} {w : ℕ}
    (h0 : 0 < a.length) (hlt : a.length < w) :
    convolveValidOnes a w = some (List.replicate (w - a.length + 1) a.sum) := by
  have h1 : ¬(a.length = 0 ∨ w = 0) := by omega
  have h2 : ¬(w ≤ a.length) := by omega
  unfold convolveValidOnes
  rw [if_neg h1, if_neg h2]

theorem foldl_max_replicate (m : ℕ) (S : ℚ) :
    (List.replicate m S).foldl max S = S := by
  induction m with
  | zero => rfl
  | succ m ih => simp [List.replicate_succ, max_self, ih]

theorem listMean_replicate {m : ℕ} (hm : 0 < m) (S : ℚ) :
    listMean (List.replicate m S) = S := by
  have hm2 : ((m : ℚ)) ≠ 0 := by
    exact_mod_cast Nat.pos_iff_ne_zero.mp hm
  rw [listMean, List.sum_replicate, List.length_replicate, nsmul_eq_mul]
  exact mul_div_cancel_left₀ S hm2

/-- Inversion principle for a successful pipeline run: the result fields are
exactly the values the script computes from the window energy curve. -/
theorem runPipeline_ok_iff (t : Track) (r : HighlightResult) :
    (runPipeline t).1 = Except.ok r ↔
      ∃ os, convolveValidOnes t.onsetEnv (windowSize t.sr) = some os ∧
        listMean os ≠ 0 ∧
        r = { start := clampStart (framesToTime (argmaxIdx os) t.sr) t.duration,
              duration := highlightDuration t.duration
                            (clampStart (framesToTime (argmaxIdx os) t.sr) t.duration),
              confidence := os.getD (argmaxIdx os) 0 / listMean os,
              energy_ratio := os.getD (argmaxIdx os) 0 / listMean os } := by
  cases hc : convolveValidOnes t.onsetEnv (windowSize t.sr) with
  | none => simp [runPipeline, hc]
  | some os =>
    by_cases hm : listMean os = 0
    · simp [runPipeline, hc, hm]
    · simp only [runPipeline, hc, hm, if_false]
      constructor
      · intro h
        exact ⟨os, rfl, hm, by
          cases h
          rfl⟩
      · rintro ⟨os₂, hos₂, -, hr⟩
        cases hos₂
        rw [hr]

end ExtractHighlight

namespace ExtractHighlight

/-- C1: every successful run (one whose standard output is a Highlight Result,
exit code 0) satisfies `0 ≤ start`, `duration > 0`,
`start + duration ≤ track_duration + ε` and `duration ≤ 20 + ε`.  The
hypothesis `0 < t.duration` holds for every run that reaches the analysis:
the onset extractor fails on an empty waveform, and a non-empty waveform has
positive duration `len(y)/sr`. -/
theorem c1_bounds (argv : List String) (t : Track) (r : HighlightResult)
    (hdur : 0 < t.duration)
    (hout : (runMain argv (Except.ok t)).stdout = Output.resultJson r) :
    0 ≤ r.start ∧ 0 < r.duration ∧
      r.start + r.duration ≤ t.duration + epsTol ∧ r.duration ≤ 20 + epsTol := by
  have hok : (runPipeline t).1 = Except.ok r := by
    by_cases hlen : argv.length < 2
    · simp [runMain, hlen] at hout
    · cases hp : (runPipeline t).1 with
      | error e => simp [runMain, hlen, hp] at hout
      | ok r2 =>
        simp [runMain, hlen, hp] at hout
        exact congrArg Except.ok hout
  rcases (runPipeline_ok_iff t r).mp hok with ⟨os, hc, hm, hr⟩
  subst hr
  have hst0nn : 0 ≤ framesToTime (argmaxIdx os) t.sr := by
    unfold framesToTime
    positivity
  have hstart_nn : 0 ≤ clampStart (framesToTime (argmaxIdx os) t.sr) t.duration := by
    unfold clampStart
    split
    · exact le_max_left 0 _
    · exact hst0nn
  have hstart_lt : clampStart (framesToTime (argmaxIdx os) t.sr) t.duration < t.duration := by
    unfold clampStart
    split
    · exact max_lt hdur (sub_lt_self _ (by norm_num))
    next hgt =>
      push_neg at hgt
      exact lt_of_le_of_lt hgt (sub_lt_self _ (by norm_num))
  refine ⟨hstart_nn, ?_, ?_, ?_⟩
  · exact lt_min (by norm_num) (sub_pos.mpr hstart_lt)
  · have h1 : clampStart (framesToTime (argmaxIdx os) t.sr) t.duration +
        highlightDuration t.duration (clampStart (framesToTime (argmaxIdx os) t.sr) t.duration)
        ≤ t.duration := by
      unfold highlightDuration
      have := min_le_right (20 : ℚ)
        (t.duration - clampStart (framesToTime (argmaxIdx os) t.sr) t.duration)
      linarith
    have h2 : (0 : ℚ) ≤ epsTol := by norm_num [epsTol]
    exact le_trans h1 (by linarith)
  · have h1 : highlightDuration t.duration
        (clampStart (framesToTime (argmaxIdx os) t.sr) t.duration) ≤ 20 :=
      min_le_left _ _
    have h2 : (0 : ℚ) ≤ epsTol := by norm_num [epsTol]
    linarith

/-- Witness for C1 at a concrete successful run. -/
theorem c1_bounds_witness :
    (0 : ℚ) < (Track.mk 308 (1/10) 120 [] [1, 1]).duration ∧
    (runMain ["prog", "a.mp3"] (Except.ok (Track.mk 308 (1/10) 120 [] [1, 1]))).stdout
        = Output.resultJson ⟨0, 1/10, 1, 1⟩ ∧
    (0 ≤ (HighlightResult.mk 0 (1/10) 1 1).start ∧
      0 < (HighlightResult.mk 0 (1/10) 1 1).duration ∧
      (HighlightResult.mk 0 (1/10) 1 1).start + (HighlightResult.mk 0 (1/10) 1 1).duration
          ≤ (Track.mk 308 (1/10) 120 [] [1, 1]).duration + epsTol ∧
      (HighlightResult.mk 0 (1/10) 1 1).duration ≤ 20 + epsTol) :=
  ⟨by norm_num,
    by
      norm_num [runMain, runPipeline, convolveValidOnes, windowSize, hopSize, argmaxIdx,
        listMax, listMean, framesToTime, clampStart, highlightDuration, List.findIdx,
        List.findIdx.go, List.replicate, max_self],
    c1_bounds ["prog", "a.mp3"] (Track.mk 308 (1/10) 120 [] [1, 1]) ⟨0, 1/10, 1, 1⟩
      (by norm_num)
      (by
        norm_num [runMain, runPipeline, convolveValidOnes, windowSize, hopSize, argmaxIdx,
          listMax, listMean, framesToTime, clampStart, highlightDuration, List.findIdx,
          List.findIdx.go, List.replicate, max_self])⟩

/-- C4: if the window energy curve of a successfully loaded waveform has mean
exactly zero (for instance an all-zero waveform of valid length), the division
`peak_energy / mean_energy` raises `ZeroDivisionError`, so the run prints an
error JSON object and exits with code 1; no Highlight Result is ever emitted
on such an input (hence no result with non-finite fields exists). -/
theorem c4_zero_mean (t : Track) (os : List ℚ)
    (hc : convolveValidOnes t.onsetEnv (windowSize t.sr) = some os)
    (hm : listMean os = 0) :
    (runPipeline t).1 = Except.error PipeError.zeroDivMean ∧
      (∀ argv : List String, 2 ≤ argv.length →
        runMain argv (Except.ok t) =
          { stdout := Output.errorJson (errMsg PipeError.zeroDivMean),
            exitCode := 1, logClosed := true }) ∧
      ∀ r : HighlightResult, (runPipeline t).1 ≠ Except.ok r := by
  have h1 : (runPipeline t).1 = Except.error PipeError.zeroDivMean := by
    simp [runPipeline, hc, hm]
  refine ⟨h1, ?_, ?_⟩
  · intro argv hlen
    have h2 : ¬argv.length < 2 := by omega
    simp [runMain, h2, h1]
  · intro r h2
    rw [h1] at h2
    exact Except.noConfusion h2

/-- Witness for C4 at a concrete all-zero onset curve. -/
theorem c4_zero_mean_witness :
    convolveValidOnes (Track.mk 308 (1/10) 120 [] [0, 0]).onsetEnv
        (windowSize (Track.mk 308 (1/10) 120 [] [0, 0]).sr) = some [0, 0] ∧
    listMean [(0 : ℚ), 0] = 0 ∧
    (runPipeline (Track.mk 308 (1/10) 120 [] [0, 0])).1
        = Except.error PipeError.zeroDivMean :=
  ⟨by norm_num [convolveValidOnes, windowSize, hopSize, List.replicate],
    by norm_num [listMean],
    (c4_zero_mean (Track.mk 308 (1/10) 120 [] [0, 0]) [0, 0]
      (by norm_num [convolveValidOnes, windowSize, hopSize, List.replicate])
      (by norm_num [listMean])).1⟩

/-- C5: for every successful run, the emitted start is the raw peak start
clamped by `max(0, track_duration - 20)` exactly when it overruns
`track_duration - 20`, and the emitted duration always equals
`min(20, track_duration - start)` computed with the clamped start; for a
track shorter than 20 seconds the start is 0 and the full remaining track
length is returned. -/
theorem c5_boundary (t : Track) (r : HighlightResult) (os : List ℚ)
    (hc : convolveValidOnes t.onsetEnv (windowSize t.sr) = some os)
    (hok : (runPipeline t).1 = Except.ok r) :
    r.start = clampStart (framesToTime (argmaxIdx os) t.sr) t.duration ∧
    r.duration = min 20 (t.duration - r.start) ∧
    (framesToTime (argmaxIdx os) t.sr > t.duration - 20 →
      r.start = max 0 (t.duration - 20)) ∧
    (t.duration < 20 → r.start = 0 ∧ r.duration = t.duration) := by
  rcases (runPipeline_ok_iff t r).mp hok with ⟨os₂, hc₂, hm, hr⟩
  rw [hc] at hc₂
  cases hc₂
  subst hr
  have hst0nn : 0 ≤ framesToTime (argmaxIdx os) t.sr := by
    unfold framesToTime
    positivity
  refine ⟨rfl, rfl, ?_, ?_⟩
  · intro hgt
    unfold clampStart
    rw [if_pos hgt]
  · intro hlt
    have hgt : framesToTime (argmaxIdx os) t.sr > t.duration - 20 := by linarith
    have hstart : clampStart (framesToTime (argmaxIdx os) t.sr) t.duration = 0 := by
      unfold clampStart
      rw [if_pos hgt]
      exact max_eq_left (by linarith)
    refine ⟨hstart, ?_⟩
    show highlightDuration t.duration _ = t.duration
    rw [hstart]
    unfold highlightDuration
    rw [sub_zero]
    exact min_eq_right (by linarith)

/-- Witness for C5 at a concrete short track (clamping active). -/
theorem c5_boundary_witness :
    convolveValidOnes (Track.mk 308 (1/2) 0 [] [2, 1]).onsetEnv
        (windowSize (Track.mk 308 (1/2) 0 [] [2, 1]).sr) = some [3, 3] ∧
    (runPipeline (Track.mk 308 (1/2) 0 [] [2, 1])).1 = Except.ok ⟨0, 1/2, 1, 1⟩ ∧
    ((HighlightResult.mk 0 (1/2) 1 1).start
        = clampStart (framesToTime (argmaxIdx [3, 3]) (Track.mk 308 (1/2) 0 [] [2, 1]).sr)
            (Track.mk 308 (1/2) 0 [] [2, 1]).duration ∧
      (HighlightResult.mk 0 (1/2) 1 1).duration
        = min 20 ((Track.mk 308 (1/2) 0 [] [2, 1]).duration
            - (HighlightResult.mk 0 (1/2) 1 1).start) ∧
      (framesToTime (argmaxIdx [3, 3]) (Track.mk 308 (1/2) 0 [] [2, 1]).sr
          > (Track.mk 308 (1/2) 0 [] [2, 1]).duration - 20 →
        (HighlightResult.mk 0 (1/2) 1 1).start
          = max 0 ((Track.mk 308 (1/2) 0 [] [2, 1]).duration - 20)) ∧
      ((Track.mk 308 (1/2) 0 [] [2, 1]).duration < 20 →
        (HighlightResult.mk 0 (1/2) 1 1).start = 0 ∧
        (HighlightResult.mk 0 (1/2) 1 1).duration
          = (Track.mk 308 (1/2) 0 [] [2, 1]).duration)) :=
  ⟨by norm_num [convolveValidOnes, windowSize, hopSize, List.replicate],
    by
      norm_num [runPipeline, convolveValidOnes, windowSize, hopSize, argmaxIdx, listMax,
        listMean, framesToTime, clampStart, highlightDuration, List.findIdx,
        List.findIdx.go, List.replicate, max_self],
    c5_boundary (Track.mk 308 (1/2) 0 [] [2, 1]) ⟨0, 1/2, 1, 1⟩ [3, 3]
      (by norm_num [convolveValidOnes, windowSize, hopSize, List.replicate])
      (by
        norm_num [runPipeline, convolveValidOnes, windowSize, hopSize, argmaxIdx, listMax,
          listMean, framesToTime, clampStart, highlightDuration, List.findIdx,
          List.findIdx.go, List.replicate, max_self])⟩

/-- Peak and first entry of a non-empty constant list. -/
theorem argmaxIdx_replicate_succ (m : ℕ) (S : ℚ) :
    argmaxIdx (List.replicate (m + 1) S) = 0 := by
  unfold argmaxIdx
  rw [List.replicate_succ, List.findIdx_cons]
  have hmax : listMax (S :: List.replicate m S) = S := foldl_max_replicate m S
  simp [hmax]

/-- C2 counterexample: an onset curve of 2 frames with `window_size = 3`
(sample rate 308).  Contrary to the claim, the window energy curve is the
NON-empty list `[2, 2]` (numpy swaps the convolution arguments when the
kernel is longer than the signal), selection proceeds, and the run succeeds
with exit code 0 instead of failing with a degenerate-signal error. -/
theorem c2_counterexample :
    (Track.mk 308 (1/10) 120 [] [1, 1]).onsetEnv.length
        < windowSize (Track.mk 308 (1/10) 120 [] [1, 1]).sr ∧
    convolveValidOnes [(1 : ℚ), 1] (windowSize 308) = some [2, 2] ∧
    (runPipeline (Track.mk 308 (1/10) 120 [] [1, 1])).1
        = Except.ok ⟨0, 1/10, 1, 1⟩ ∧
    (runMain ["prog", "a.mp3"]
        (Except.ok (Track.mk 308 (1/10) 120 [] [1, 1]))).exitCode = 0 := by
  refine ⟨by norm_num [windowSize, hopSize], ?_, ?_, ?_⟩ <;>
    norm_num [runMain, runPipeline, convolveValidOnes, windowSize, hopSize, argmaxIdx,
      listMax, listMean, framesToTime, clampStart, highlightDuration, List.findIdx,
      List.findIdx.go, List.replicate, max_self]

/-- C2 amended: when the onset curve is non-empty but shorter than
`window_size`, the argument-swapping valid convolution of numpy yields
`window_size - len + 1` copies of the total onset sum, so the window energy
curve is NOT empty; whenever that total is non-zero, selection proceeds
and the run succeeds with start 0, energy ratio 1 and duration
`min 20 track_duration` (no degenerate-signal failure occurs). -/
theorem c2_short_curve (t : Track) (h0 : 0 < t.onsetEnv.length)
    (hlt : t.onsetEnv.length < windowSize t.sr) (hsum : t.onsetEnv.sum ≠ 0) :
    convolveValidOnes t.onsetEnv (windowSize t.sr)
        = some (List.replicate (windowSize t.sr - t.onsetEnv.length + 1) t.onsetEnv.sum) ∧
    (runPipeline t).1 = Except.ok ⟨0, min 20 t.duration, 1, 1⟩ := by
  have hc := convolveValidOnes_of_lt h0 hlt
  refine ⟨hc, ?_⟩
  rw [runPipeline_ok_iff]
  refine ⟨List.replicate (windowSize t.sr - t.onsetEnv.length + 1) t.onsetEnv.sum, hc, ?_, ?_⟩
  · rw [listMean_replicate (Nat.succ_pos _)]
    exact hsum
  · have h1 : argmaxIdx (List.replicate (windowSize t.sr - t.onsetEnv.length + 1)
        t.onsetEnv.sum) = 0 := argmaxIdx_replicate_succ _ _
    have h2 : framesToTime 0 t.sr = 0 := by
      simp [framesToTime]
    have h3 : clampStart 0 t.duration = 0 := by
      unfold clampStart
      split
      next h => exact max_eq_left (le_of_lt h)
      · rfl
    have h4 : (List.replicate (windowSize t.sr - t.onsetEnv.length + 1)
        t.onsetEnv.sum).getD 0 0 = t.onsetEnv.sum := by
      rw [List.replicate_succ]
      rfl
    rw [h1, h2, h3, h4, listMean_replicate (Nat.succ_pos _), div_self hsum]
    simp [highlightDuration]

/-- Witness for C2 amended at a concrete short onset curve. -/
theorem c2_short_curve_witness :
    convolveValidOnes (Track.mk 308 30 7 [3] [1, 2]).onsetEnv
        (windowSize (Track.mk 308 30 7 [3] [1, 2]).sr)
      = some (List.replicate
          (windowSize (Track.mk 308 30 7 [3] [1, 2]).sr
            - (Track.mk 308 30 7 [3] [1, 2]).onsetEnv.length + 1)
          (Track.mk 308 30 7 [3] [1, 2]).onsetEnv.sum) ∧
    (runPipeline (Track.mk 308 30 7 [3] [1, 2])).1
      = Except.ok ⟨0, min 20 (Track.mk 308 30 7 [3] [1, 2]).duration, 1, 1⟩ :=
  c2_short_curve (Track.mk 308 30 7 [3] [1, 2]) (by norm_num)
    (by norm_num [windowSize, hopSize]) (by norm_num)

/-- C3 counterexample: the code computes `int(5 * sr / 512)` (truncation),
not `round(5 * sr / 512)` with a minimum of 1.  At `sr = 307` the code gives
2 while rounding gives 3; at `sr = 100` the code gives 0, violating the
claimed lower bound of 1. -/
theorem c3_counterexample :
    windowSize 307 = 2 ∧ round ((5 * 307 : ℚ) / 512) = 3 ∧ windowSize 100 = 0 := by
  refine ⟨rfl, ?_, rfl⟩
  rw [round_eq]
  norm_num

/-- C3 amended: the window size is the floor (truncation) of `5 * sr / 512`,
with no lower clamp: it equals 0 exactly when `sr ≤ 102`. -/
theorem c3_truncation (sr : ℕ) :
    windowSize sr = ⌊(5 * sr : ℚ) / 512⌋₊ ∧ (windowSize sr = 0 ↔ sr ≤ 102) := by
  constructor
  · unfold windowSize hopSize
    rw [← @Nat.floor_div_eq_div ℚ _ _ (5 * sr) 512]
    norm_num
  · unfold windowSize hopSize
    omega

/-- C6: on any window energy curve attaining its maximum at two or more
positions, the selector (`np.argmax`) attains the maximum value and returns
an index no larger than any index attaining it — the first occurrence. -/
theorem c6_first_max (l : List ℚ) (i j : ℕ) (hij : i < j) (hj : j < l.length)
    (hmax : ∀ k, k < l.length → l.getD k 0 ≤ l.getD i 0)
    (_heq : l.getD i 0 = l.getD j 0) :
    l.getD (argmaxIdx l) 0 = l.getD i 0 ∧
      ∀ k, k < l.length → l.getD k 0 = l.getD i 0 → argmaxIdx l ≤ k := by
  have hi : i < l.length := lt_trans hij hj
  have hne : l ≠ [] := by
    intro h
    rw [h] at hj
    exact absurd hj (by simp)
  have hieq : l.getD i 0 = listMax l := by
    apply le_antisymm
    · rw [getD_of_lt l hi]
      exact le_listMax (List.getElem_mem hi)
    · rcases List.mem_iff_getElem.mp (listMax_mem hne) with ⟨n, hn, hval⟩
      have h2 := hmax n hn
      rw [getD_of_lt l hn, hval] at h2
      exact h2
  refine ⟨?_, ?_⟩
  · rw [getD_argmaxIdx hne, hieq]
  · intro k hk hke
    exact argmaxIdx_le_of_getD hk (by rw [hke, hieq])

/-- Witness for C6 on the curve `[1, 7, 7]` with the maximum at indices 1
and 2: the selector picks an index attaining 7 that is at most 1. -/
theorem c6_first_max_witness :
    [(1 : ℚ), 7, 7].getD (argmaxIdx [(1 : ℚ), 7, 7]) 0 = [(1 : ℚ), 7, 7].getD 1 0 ∧
      ∀ k, k < ([(1 : ℚ), 7, 7] : List ℚ).length →
        [(1 : ℚ), 7, 7].getD k 0 = [(1 : ℚ), 7, 7].getD 1 0 →
          argmaxIdx [(1 : ℚ), 7, 7] ≤ k :=
  c6_first_max [(1 : ℚ), 7, 7] 1 2 (by norm_num) (by norm_num)
    (by
      intro k hk
      simp at hk
      interval_cases k <;> norm_num [List.getD_cons_zero, List.getD_cons_succ])
    (by norm_num [List.getD_cons_succ, List.getD_cons_zero])

/-- C7: invoked with fewer than two argv entries (no audio path), the script
prints exactly the JSON error object with message "No audio file provided"
and exits with code 1, and the outcome does not depend on the audio loader
at all (no load is attempted). -/
theorem c7_missing_arg (argv : List String) (load : Except String Track)
    (h : argv.length < 2) :
    runMain argv load =
      { stdout := Output.errorJson "No audio file provided",
        exitCode := 1, logClosed := false } ∧
    ∀ load₂ : Except String Track, runMain argv load₂ = runMain argv load := by
  constructor
  · simp [runMain, h]
  · intro load₂
    simp [runMain, h]

/-- Witness for C7 with a one-element argv. -/
theorem c7_missing_arg_witness :
    runMain ["extract_highlight.py"] (Except.error "decode failure") =
      { stdout := Output.errorJson "No audio file provided",
        exitCode := 1, logClosed := false } ∧
    ∀ load₂ : Except String Track,
      runMain ["extract_highlight.py"] load₂
        = runMain ["extract_highlight.py"] (Except.error "decode failure") :=
  c7_missing_arg ["extract_highlight.py"] (Except.error "decode failure") (by norm_num)

/-- C8 counterexample: on the missing-argument exit path the script reaches
`sys.exit(1)` at line 28 without executing `debug_log.close()`, so the log
file opened at line 13 is not explicitly closed on that exit path. -/
theorem c8_counterexample :
    (runMain ["extract_highlight.py"] (Except.error "unused")).logClosed = false := rfl

/-- C8 amended: the debug log is explicitly closed on the success path and on
the processing-failure path (every run that passes the argument check), but
not on the missing-argument path. -/
theorem c8_close_paths (argv : List String) (load : Except String Track)
    (h : 2 ≤ argv.length) : (runMain argv load).logClosed = true := by
  have h2 : ¬argv.length < 2 := by omega
  cases load with
  | error msg => simp [runMain, h2]
  | ok t =>
    cases hp : (runPipeline t).1 with
    | error e => simp [runMain, h2, hp]
    | ok r => simp [runMain, h2, hp]

/-- Witness for C8 amended on a failing load with a full argv. -/
theorem c8_close_paths_witness :
    (runMain ["extract_highlight.py", "a.mp3"] (Except.error "decode failure")).logClosed
      = true :=
  c8_close_paths ["extract_highlight.py", "a.mp3"] (Except.error "decode failure")
    (by norm_num)

/-- C9: two runs on the same waveform data (same sample rate, duration and
onset curve) that differ only in the rhythm-analyzer outputs (tempo value
and beat sequence) produce the identical pipeline outcome — tempo and beats
reach only the debug log, never the result. -/
theorem c9_tempo_beats_unused (t t₂ : Track) (hsr : t.sr = t₂.sr)
    (hdur : t.duration = t₂.duration) (henv : t.onsetEnv = t₂.onsetEnv) :
    (runPipeline t).1 = (runPipeline t₂).1 := by
  obtain ⟨sr, dur, tp, bs, env⟩ := t
  obtain ⟨sr₂, dur₂, tp₂, bs₂, env₂⟩ := t₂
  dsimp at hsr hdur henv
  subst hsr
  subst hdur
  subst henv
  cases hc : convolveValidOnes env (windowSize sr) with
  | none => simp [runPipeline, hc]
  | some os =>
    by_cases hm : listMean os = 0 <;> simp [runPipeline, hc, hm]

/-- Witness for C9: two tracks differing in tempo and beats only. -/
theorem c9_tempo_beats_unused_witness :
    (runPipeline (Track.mk 308 30 120 [1, 2, 3] [1, 2])).1
      = (runPipeline (Track.mk 308 30 95 [] [1, 2])).1 :=
  c9_tempo_beats_unused (Track.mk 308 30 120 [1, 2, 3] [1, 2])
    (Track.mk 308 30 95 [] [1, 2]) rfl rfl rfl

/-- C10: on every successful run whose onset curve is non-negative (the
onset strength extractor only produces non-negative values), the emitted
energy ratio is at least 1 — the peak window energy is the maximum of the
window energy curve, hence at least its mean, and the mean is positive on
the success path — and confidence equals energy ratio. -/
theorem c10_ratio_ge_one (t : Track) (r : HighlightResult)
    (hnn : ∀ x ∈ t.onsetEnv, 0 ≤ x)
    (hok : (runPipeline t).1 = Except.ok r) :
    1 ≤ r.energy_ratio ∧ r.confidence = r.energy_ratio := by
  rcases (runPipeline_ok_iff t r).mp hok with ⟨os, hc, hm, hr⟩
  subst hr
  have hos_ne : os ≠ [] := by
    have hpos := convolveValidOnes_pos_length hc
    intro h
    rw [h] at hpos
    exact absurd hpos (by simp)
  have hosnn : ∀ y ∈ os, 0 ≤ y := convolveValidOnes_mem_nonneg hc hnn
  have hmean_pos : 0 < listMean os :=
    lt_of_le_of_ne (listMean_nonneg hosnn) (Ne.symm hm)
  constructor
  · show 1 ≤ os.getD (argmaxIdx os) 0 / listMean os
    rw [getD_argmaxIdx hos_ne, one_le_div hmean_pos]
    exact listMean_le_listMax hos_ne
  · rfl

/-- Witness for C10 at a concrete successful run. -/
theorem c10_ratio_ge_one_witness :
    1 ≤ (HighlightResult.mk 0 20 1 1).energy_ratio ∧
      (HighlightResult.mk 0 20 1 1).confidence = (HighlightResult.mk 0 20 1 1).energy_ratio :=
  c10_ratio_ge_one (Track.mk 308 30 7 [3] [1, 2]) ⟨0, 20, 1, 1⟩
    (by
      intro x hx
      simp at hx
      rcases hx with rfl | rfl <;> norm_num)
    (by
      norm_num [runPipeline, convolveValidOnes, windowSize, hopSize, argmaxIdx, listMax,
        listMean, framesToTime, clampStart, highlightDuration, List.findIdx,
        List.findIdx.go, List.replicate, max_self])

end ExtractHighlight
